import Mathlib

/-!
Verification of the Home Assistant Vertex AI conversation integrations
(`custom_components/vertex_ai_conversation` for Google Gemini and
`custom_components/claude_vertex_ai_conversation` for Anthropic Claude).

The Python modules are shallowly embedded: pure data-shaping code is
translated to Lean functions; the blocking vendor-SDK calls and other
external effects are abstracted as explicit oracle parameters; Python
exceptions are modelled with `Except`.
-/

namespace VertexAI

/-- A stored chat-log entry (a Python `dict[str, Any]` with optional
`"role"` and `"content"` keys).  `none` models an absent key, mirroring
`message.get("role", "user")` / `message.get("content", "")` in the
converters. -/
structure ChatMessage where
  role? : Option String
  content? : Option String
  deriving DecidableEq, Repr

/-- The string built by both adapters in their `except` branch. -/
def error_message : String :=
  "Sorry, I encountered an error while processing your request. Please try again."

/-- The fields of `conversation.ConversationResult` that the adapters fill in:
the plain speech text and the chat log returned as `conversation_id`. -/
structure ConversationResult where
  speech : String
  conversation_id : List ChatMessage
  deriving DecidableEq, Repr

/-- A parsed JSON/YAML value, used both for the credential JSON handed to
`async_setup_entry` and for the custom-tool YAML.  Mapping keys are
restricted to strings, which is all the code's schemas accept. -/
inductive JVal where
  | nullV
  | boolV (b : Bool)
  | numV (n : Int)
  | strV (s : String)
  | arrV (items : List JVal)
  | objV (fields : List (String × JVal))

/-- Python truthiness of a parsed value (`if not tools_config`). -/
def JVal.isFalsy : JVal → Bool
  | .nullV => true
  | .boolV b => !b
  | .numV n => n == 0
  | .strV s => s.isEmpty
  | .arrV xs => xs.isEmpty
  | .objV fs => fs.isEmpty

namespace Gemini

/-- Embedding of `google.genai.types.Content` as built by the Gemini adapter:
a role string and the text of each `Part`. -/
structure Content where
  role : String
  partsText : List String
  deriving DecidableEq, Repr

/-- Embedding of `VertexAIConversationEntity._convert_chat_log_to_contents`
(`vertex_ai_conversation/conversation.py`): each prior message is mapped with
`role = message.get("role", "user")`, `content_text = message.get("content", "")`,
`vertex_role = "model" if role == "assistant" else "user"`, and the current
user input is appended last with role `"user"`. -/
def _convert_chat_log_to_contents (chat_log : List ChatMessage)
    (current_input : String) : List Content :=
  (chat_log.map fun message =>
    let role := message.role?.getD "user"
    let content_text := message.content?.getD ""
    let vertex_role := if role = "assistant" then "model" else "user"
    { role := vertex_role, partsText := [content_text] })
  ++ [{ role := "user", partsText := [current_input] }]

/-- Embedding of `VertexAIConversationEntity._async_handle_message`
(`vertex_ai_conversation/conversation.py`).  The `vendor` oracle stands for
the whole body of the `try` block up to and including text extraction
(`self.hass.async_add_executor_job(...)` followed by
`_extract_response_text`): `.ok text` is a successful generation, `.error`
any raised exception.  On success the handler appends the user turn and the
assistant turn to the chat log and returns the response text; on an
exception it returns the fixed `error_message` with the chat log as it was.
The result type `Except` reflects that the Python coroutine could itself
propagate an exception; `.ok` means it returns normally. -/
def _async_handle_message (vendor : List Content → Except String String)
    (chat_log : List ChatMessage) (user_input : String) :
    Except String ConversationResult :=
  match vendor (_convert_chat_log_to_contents chat_log user_input) with
  | .ok response_text =>
      .ok { speech := response_text,
            conversation_id := chat_log ++
              [{ role? := some "user", content? := some user_input },
               { role? := some "assistant", content? := some response_text }] }
  | .error _ =>
      .ok { speech := error_message, conversation_id := chat_log }

end Gemini

namespace Claude

/-- An Anthropic-format message dict `{"role": ..., "content": ...}` as built
by the Claude adapter. -/
structure Message where
  role : String
  content : String
  deriving DecidableEq, Repr

/-- Embedding of `VertexAIConversationEntity._convert_chat_log_to_messages`
(`claude_vertex_ai_conversation/conversation.py`): each prior message is
passed through with `role = message.get("role", "user")` and
`content = message.get("content", "")` (no role renaming), and the current
user input is appended last with role `"user"`. -/
def _convert_chat_log_to_messages (chat_log : List ChatMessage)
    (current_input : String) : List Message :=
  (chat_log.map fun message =>
    { role := message.role?.getD "user", content := message.content?.getD "" })
  ++ [{ role := "user", content := current_input }]

/-- Embedding of `VertexAIConversationEntity._async_handle_message`
(`claude_vertex_ai_conversation/conversation.py`).  The `vendor` oracle
stands for `self.client.messages.create(**create_kwargs)` run in the
executor together with `response.content[0].text`: `.ok text` is a
successful call, `.error` any raised exception.  Control flow mirrors the
Gemini adapter: success appends both turns, an exception returns the fixed
apology with the chat log untouched. -/
def _async_handle_message (vendor : List Message → Except String String)
    (chat_log : List ChatMessage) (user_input : String) :
    Except String ConversationResult :=
  match vendor (_convert_chat_log_to_messages chat_log user_input) with
  | .ok response_text =>
      .ok { speech := response_text,
            conversation_id := chat_log ++
              [{ role? := some "user", content? := some user_input },
               { role? := some "assistant", content? := some response_text }] }
  | .error _ =>
      .ok { speech := error_message, conversation_id := chat_log }

end Claude

namespace Helpers

/-- Default sample rate (`DEFAULT_SAMPLE_RATE` in `helpers.py`). -/
def DEFAULT_SAMPLE_RATE : Nat := 24000

/-- Default bits per sample (`DEFAULT_BITS_PER_SAMPLE` in `helpers.py`). -/
def DEFAULT_BITS_PER_SAMPLE : Nat := 16

/-- Numeric value of a run of decimal digit characters (Python `int(...)` on
a regex group of digits). -/
def digitsToNat (ds : List Char) : Nat :=
  ds.foldl (fun a c => a * 10 + (c.toNat - 48)) 0

/-- Leftmost match of the pattern `L` followed by one or more digits, as in
Python `re.search` with a digit-group pattern after `L`: at each position,
if the character is `L` and at least one digit follows, the maximal digit
run is the match; otherwise the search continues one position further. -/
def findLNum : List Char → Option Nat
  | [] => none
  | c :: rest =>
    if c = 'L' then
      let ds := rest.takeWhile Char.isDigit
      if ds.isEmpty then findLNum rest else some (digitsToNat ds)
    else findLNum rest

/-- Leftmost match of the pattern `rate=` followed by one or more digits
(Python `re.search` again): at each position, if the text `rate=` starts
here and at least one digit follows it, the maximal digit run is the match;
otherwise the search continues one position further. -/
def findRateNum : List Char → Option Nat
  | [] => none
  | c :: rest =>
    if (c :: rest).take 5 = ['r', 'a', 't', 'e', '='] then
      let ds := ((c :: rest).drop 5).takeWhile Char.isDigit
      if ds.isEmpty then findRateNum rest else some (digitsToNat ds)
    else findRateNum rest

/-- Embedding of `_parse_audio_mime_type` (`helpers.py`): start from the
defaults 24000 Hz / 16 bits, override bits per sample from the first
`L<digits>` occurrence and the sample rate from the first `rate=<digits>`
occurrence.  Returns `(sample_rate, bits_per_sample)`. -/
def _parse_audio_mime_type (mime_type : String) : Nat × Nat :=
  let bits_per_sample :=
    (findLNum mime_type.data).getD DEFAULT_BITS_PER_SAMPLE
  let sample_rate :=
    (findRateNum mime_type.data).getD DEFAULT_SAMPLE_RATE
  (sample_rate, bits_per_sample)

/-- The WAV container as reported by its header: channel count, sample width
in bytes, frame rate in Hz, and the raw frames. -/
structure WavFile where
  nchannels : Nat
  sampwidth : Nat
  framerate : Nat
  frames : List Nat
  deriving DecidableEq, Repr

/-- The exception classes `convert_to_wav` can raise. -/
inductive WavError where
  | valueError (msg : String)
  | osError (msg : String)
  deriving DecidableEq, Repr

/-- Embedding of `convert_to_wav` (`helpers.py`).  Empty input raises
`ValueError("Audio data cannot be empty")` before any parsing.  Otherwise
the MIME type is parsed, `sample_width = bits_per_sample // 8`, and a mono
WAV container is produced.  The Python `wave` module rejects a sample width
outside 1..4 and a zero frame rate with `wave.Error`, which the generic
handler in `convert_to_wav` re-raises as a `ValueError`; those stdlib checks
are modelled here so the function stays total over all MIME strings. -/
def convert_to_wav (audio_data : List Nat) (mime_type : String) :
    Except WavError WavFile :=
  if audio_data.isEmpty then
    .error (.valueError "Audio data cannot be empty")
  else
    let (sample_rate, bits_per_sample) := _parse_audio_mime_type mime_type
    let sample_width := bits_per_sample / 8
    let num_channels := 1
    if sample_width < 1 ∨ 4 < sample_width then
      .error (.valueError "Failed to convert audio to WAV: bad sample width")
    else if sample_rate = 0 then
      .error (.valueError "Failed to convert audio to WAV: bad frame rate")
    else
      .ok { nchannels := num_channels, sampwidth := sample_width,
            framerate := sample_rate, frames := audio_data }

end Helpers

namespace CustomTools

/-- One step of a custom tool's service-call sequence, reduced to the field
that determines the aggregate-result structure: `service` is
`step.get("service", "")` (the empty string when the key is absent).  The
step's `data`/`target` payloads and their template rendering are abstracted
away — the rendered values only feed the actual service call, whose
behavior is the `CallOutcome` oracle below. -/
structure Step where
  service : String
  deriving DecidableEq, Repr

/-- What the awaited `hass.services.async_call` under `asyncio.wait_for`
does for one step: returns, times out, or raises. -/
inductive CallOutcome where
  | success
  | timeout
  | failure (msg : String)
  deriving DecidableEq, Repr

/-- One per-step record appended to `results` by `_execute_script`:
the dict `{"service": ..., "success": ..., "error"?: ...}`. -/
structure StepResult where
  service : String
  success : Bool
  error : Option String
  deriving DecidableEq, Repr

/-- Split a list at the first occurrence of `sep` (Python
`s.split(sep, 1)` when `sep in s`), `none` when `sep` does not occur. -/
def splitAtFirst (sep : Char) : List Char → Option (List Char × List Char)
  | [] => none
  | c :: rest =>
    if c = sep then some ([], rest)
    else
      match splitAtFirst sep rest with
      | some (l, r) => some (c :: l, r)
      | none => none

/-- The domain/service selection of `_execute_script`: split at the first
`/` if one occurs, else at the first `.` if one occurs, else the service
format is invalid (`none`). -/
def splitService (service_full : String) : Option (String × String) :=
  match splitAtFirst '/' service_full.data with
  | some (d, s) => some (String.mk d, String.mk s)
  | none =>
    match splitAtFirst '.' service_full.data with
    | some (d, s) => some (String.mk d, String.mk s)
    | none => none

/-- The loop body of `CustomTool._execute_script` (`custom_tools.py`),
threading the position `i` of the current step so that the `callOutcome`
oracle can be consulted per step.  An invalid service format logs a warning
and `continue`s without appending a record; a service that
`has_service` does not know appends a failure record and continues; an
executed call appends a success record, a timeout record, or a failure
record with the exception text, and the loop always continues. -/
def executeScriptGo (has_service : String → String → Bool)
    (callOutcome : Nat → CallOutcome) : Nat → List Step → List StepResult
  | _, [] => []
  | i, step :: rest =>
    match splitService step.service with
    | none => executeScriptGo has_service callOutcome (i + 1) rest
    | some (domain, service) =>
      if has_service domain service then
        (match callOutcome i with
        | .success =>
            { service := step.service, success := true, error := none }
        | .timeout =>
            { service := step.service, success := false,
              error := some "Service call timed out" }
        | .failure msg =>
            { service := step.service, success := false, error := some msg })
          :: executeScriptGo has_service callOutcome (i + 1) rest
      else
        { service := step.service, success := false,
          error := some ("Service " ++ step.service ++ " does not exist") }
          :: executeScriptGo has_service callOutcome (i + 1) rest

/-- Embedding of `CustomTool._execute_script` (`custom_tools.py`): run the
loop from the first step and return the list bound to the `"results"` key
of the aggregate dict. -/
def _execute_script (has_service : String → String → Bool)
    (callOutcome : Nat → CallOutcome) (sequence : List Step) :
    List StepResult :=
  executeScriptGo has_service callOutcome 0 sequence

/-- The record `_execute_script` appends for the step at position `i` when
its service string has a separator (the `none` branch is a dummy, never
reached under that hypothesis). -/
def stepRecord (has_service : String → String → Bool)
    (callOutcome : Nat → CallOutcome) (i : Nat) (step : Step) : StepResult :=
  match splitService step.service with
  | none => { service := step.service, success := false, error := none }
  | some (domain, service) =>
    if has_service domain service then
      match callOutcome i with
      | .success =>
          { service := step.service, success := true, error := none }
      | .timeout =>
          { service := step.service, success := false,
            error := some "Service call timed out" }
      | .failure msg =>
          { service := step.service, success := false, error := some msg }
    else
      { service := step.service, success := false,
        error := some ("Service " ++ step.service ++ " does not exist") }

/-- Log events emitted by `parse_custom_tools` through `_LOGGER`. -/
inductive LogEntry where
  | reservedName (name : String)
  | duplicateName (name : String)
  | yamlInvalid (msg : String)
  | schemaInvalid (msg : String)
  | unexpected (msg : String)
  deriving DecidableEq, Repr

/-- The Python types that `_convert_parameters_to_schema` maps JSON-schema
type names onto. -/
inductive PyType where
  | str
  | float
  | int
  | bool
  | list
  | dict
  deriving DecidableEq, Repr

/-- The `type_map` dict of `_convert_parameters_to_schema`, with `str` as
the default for unrecognized names (`type_map.get(prop_type, str)`). -/
def type_map (prop_type : String) : PyType :=
  match prop_type with
  | "string" => .str
  | "number" => .float
  | "integer" => .int
  | "boolean" => .bool
  | "array" => .list
  | "object" => .dict
  | _ => .str

/-- One entry of the converted voluptuous parameter schema:
`vol.Required`/`vol.Optional` marker plus the mapped Python type. -/
structure ParamSpec where
  name : String
  required : Bool
  type : PyType
  deriving DecidableEq, Repr

/-- Whether `pat` occurs as a contiguous run inside the second list
(Python substring membership `pat in s`). -/
def charsContain (pat : List Char) : List Char → Bool
  | [] => pat.isEmpty
  | c :: rest => pat.isPrefixOf (c :: rest) || charsContain pat rest

/-- Python `prop_name in required`: on a list it compares elements with
`==` (only string elements can equal a string), on a dict it is key
membership, on a string it is substring membership; any non-container value
raises `TypeError`. -/
def pyIn (name : String) : JVal → Except String Bool
  | .arrV xs =>
    .ok (xs.any fun v => match v with | .strV s => s == name | _ => false)
  | .objV fs => .ok ((List.lookup name fs).isSome)
  | .strV s => .ok (charsContain name.data s.data)
  | _ => .error "TypeError: argument is not iterable"

/-- Embedding of `_convert_parameters_to_schema` (`custom_tools.py`):
`properties = params.get("properties", {})` (a non-dict value makes the
subsequent `.items()` raise `AttributeError`, which escapes to the caller's
generic handler) and `required = params.get("required", [])`; for each
property, `prop_def.get` requires a dict, its `type` value selects the
Python type through `type_map` with `str` as default (a non-string `type`
value misses the dict lookup and also defaults to `str`), and membership of
the property name in `required` decides `vol.Required` vs `vol.Optional`. -/
def _convert_parameters_to_schema (params : List (String × JVal)) :
    Except String (List ParamSpec) := do
  let properties ←
    match List.lookup "properties" params with
    | none => Except.ok []
    | some (.objV pf) => Except.ok pf
    | some _ => Except.error "AttributeError: items"
  let required := List.lookup "required" params
  properties.mapM fun kv =>
    match kv.2 with
    | .objV pd => do
      let prop_type :=
        match List.lookup "type" pd with
        | some (.strV t) => type_map t
        | some _ => PyType.str
        | none => type_map "string"
      let isReq ←
        match required with
        | none => Except.ok false
        | some r => pyIn kv.1 r
      Except.ok { name := kv.1, required := isReq, type := prop_type }
    | _ => Except.error "AttributeError: get"

/-- A tool definition that passed `TOOLS_SCHEMA` validation. -/
structure ToolDefV where
  name : String
  description : String
  parameters : List (String × JVal)
  funcType : String
  sequence : Option (List JVal)

/-- The loaded tool object: the fields `parse_custom_tools` passes to the
`CustomTool` constructor (the `hass` handle is ambient state and omitted). -/
structure CustomToolV where
  name : String
  description : String
  parameters : List ParamSpec
  funcType : String
  sequence : Option (List JVal)

/-- Whether every key of a mapping is among the allowed keys (voluptuous
default `PREVENT_EXTRA` rejects extra keys). -/
def keysAllowed (fields : List (String × JVal)) (allowed : List String) :
    Bool :=
  fields.all fun kv => allowed.contains kv.1

/-- Embedding of `TOOL_SCHEMA` (`custom_tools.py`): a mapping with required
keys `spec` (itself requiring string `name` and `description` and a dict
`parameters`) and `function` (requiring `type` in `["script"]`, optionally
a list `sequence`); voluptuous rejects missing required keys, extra keys
and wrong value types with `vol.Invalid`. -/
def validateTool (j : JVal) : Except String ToolDefV :=
  match j with
  | .objV fields =>
    if keysAllowed fields ["spec", "function"] then
      match List.lookup "spec" fields, List.lookup "function" fields with
      | some (.objV sfields), some (.objV ffields) =>
        if keysAllowed sfields ["name", "description", "parameters"]
            && keysAllowed ffields ["type", "sequence"] then
          match List.lookup "name" sfields,
              List.lookup "description" sfields,
              List.lookup "parameters" sfields with
          | some (.strV nm), some (.strV descr), some (.objV ps) =>
            match List.lookup "type" ffields with
            | some (.strV "script") =>
              match List.lookup "sequence" ffields with
              | none =>
                .ok { name := nm, description := descr, parameters := ps,
                      funcType := "script", sequence := none }
              | some (.arrV steps) =>
                .ok { name := nm, description := descr, parameters := ps,
                      funcType := "script", sequence := some steps }
              | some _ => .error "expected list @ function.sequence"
            | _ => .error "value not allowed @ function.type"
          | _, _, _ => .error "invalid value @ spec"
        else .error "extra keys not allowed"
      | _, _ => .error "required key not provided"
    else .error "extra keys not allowed"
  | _ => .error "expected a dictionary"

/-- Embedding of `TOOLS_SCHEMA = vol.Schema([TOOL_SCHEMA])`: the top-level
value must be a list and every item must satisfy `TOOL_SCHEMA`. -/
def TOOLS_SCHEMA (j : JVal) : Except String (List ToolDefV) :=
  match j with
  | .arrV items => items.mapM validateTool
  | _ => .error "expected a list"

/-- The reserved tool names of `parse_custom_tools`. -/
def RESERVED_NAMES : List String := ["web_search"]

/-- The tool-construction loop of `parse_custom_tools`: a reserved name is
rejected with a log entry; a name already in `seen_names` is skipped with a
log entry; otherwise the parameter schema is converted (an exception there
propagates to the surrounding generic handler) and the tool is appended.
Returns the loaded tools and the emitted log entries, in order. -/
def parseLoopGo (seen : List String) :
    List ToolDefV → Except String (List CustomToolV × List LogEntry)
  | [] => .ok ([], [])
  | tool_def :: rest =>
    if RESERVED_NAMES.contains tool_def.name then
      match parseLoopGo seen rest with
      | .ok (ts, ls) => .ok (ts, .reservedName tool_def.name :: ls)
      | .error e => .error e
    else if seen.contains tool_def.name then
      match parseLoopGo seen rest with
      | .ok (ts, ls) => .ok (ts, .duplicateName tool_def.name :: ls)
      | .error e => .error e
    else
      match _convert_parameters_to_schema tool_def.parameters with
      | .error e => .error e
      | .ok ps =>
        match parseLoopGo (tool_def.name :: seen) rest with
        | .ok (ts, ls) =>
          .ok ({ name := tool_def.name, description := tool_def.description,
                 parameters := ps, funcType := tool_def.funcType,
                 sequence := tool_def.sequence } :: ts, ls)
        | .error e => .error e

/-- Embedding of `parse_custom_tools` (`custom_tools.py`).  `yaml_load`
models `yaml.safe_load` applied to `yaml_config` (`.error` is a raised
`yaml.YAMLError`, `.nullV` a parsed `None`).  The whole body sits in a
`try`/`except` that catches `yaml.YAMLError`, `vol.Invalid` and any other
`Exception`, logging and returning `[]` in each case — which is why this
embedding is a total function to a pair of loaded tools and log entries,
with no error case left. -/
def parse_custom_tools (yaml_config : String)
    (yaml_load : Except String JVal) :
    List CustomToolV × List LogEntry :=
  if yaml_config.data.all Char.isWhitespace then ([], [])
  else
    match yaml_load with
    | .error e => ([], [.yamlInvalid e])
    | .ok tools_config =>
      if tools_config.isFalsy then ([], [])
      else
        match TOOLS_SCHEMA tools_config with
        | .error e => ([], [.schemaInvalid e])
        | .ok validated =>
          match parseLoopGo [] validated with
          | .ok (ts, ls) => (ts, ls)
          | .error e => ([], [.unexpected e])

/-- First-occurrence deduplication against an already-seen set: the
name-level shadow of the loader loop's `seen_names` handling. -/
def dedupFirstGo (seen : List String) : List String → List String
  | [] => []
  | n :: rest =>
    if seen.contains n then dedupFirstGo seen rest
    else n :: dedupFirstGo (n :: seen) rest

end CustomTools

namespace Setup

/-- The Python exception classes that can arise while turning the credential
JSON into a credential object in `async_setup_entry`. -/
inductive PyError where
  | jsonDecodeError
  | keyError
  | valueError
  | typeError
  | attributeError
  | googleAuthError (msg : String)
  | configEntryAuthFailed (msg : String)
  deriving DecidableEq, Repr

/-- How `async_setup_entry` terminates: normal return, an auth-failure
outcome (`ConfigEntryAuthFailed`), a not-ready outcome
(`ConfigEntryNotReady`), or an exception that none of the `except` clauses
match and that therefore propagates to the framework. -/
inductive SetupOutcome where
  | ok
  | authFailed (msg : String)
  | notReady (msg : String)
  | uncaught (e : PyError)
  deriving DecidableEq, Repr

/-- Whether an outcome is the authentication-failure outcome. -/
def SetupOutcome.isAuthFailed : SetupOutcome → Bool
  | .authFailed _ => true
  | _ => false

/-- Whether an outcome is the not-ready outcome. -/
def SetupOutcome.isNotReady : SetupOutcome → Bool
  | .notReady _ => true
  | _ => false

/-- What the second phase of setup (client construction plus the live
validation call, run in the executor) does: succeeds, raises a
`GoogleAuthError`, or raises any other exception. -/
inductive ValidationOutcome where
  | ok
  | googleAuthError (msg : String)
  | otherError (msg : String)
  deriving DecidableEq, Repr

/-- Whether the validation phase raised a non-auth exception. -/
def ValidationOutcome.isOtherError : ValidationOutcome → Bool
  | .otherError _ => true
  | _ => false

/-- Modelled from the vendor SDK (google-auth, outside this repository):
`service_account.Credentials.from_service_account_info` checks the required
`client_email` and `token_uri` fields via membership tests (which work on
dicts, lists and strings but raise `TypeError` on non-container values) and
raises `ValueError` when one is missing; building the signer then reads
`private_key`, raising `KeyError` when that field is absent.  Successful
construction is abstracted to `()` — key-material validation is not
modelled. -/
def from_service_account_info : JVal → Except PyError Unit
  | .objV fields =>
    if (List.lookup "client_email" fields).isNone
        ∨ (List.lookup "token_uri" fields).isNone then
      .error .valueError
    else if (List.lookup "private_key" fields).isNone then
      .error .keyError
    else
      .ok ()
  | .arrV _ => .error .valueError
  | .strV _ => .error .valueError
  | _ => .error .typeError

/-- Modelled from the vendor SDK (google-auth, outside this repository):
`Credentials.from_authorized_user_info` raises `ValueError` when any of
`refresh_token`, `client_id`, `client_secret` is missing from the info
dict.  The Claude integration only reaches this call with a dict, since
`credentials_info.get("type")` succeeded. -/
def from_authorized_user_info : JVal → Except PyError Unit
  | .objV fields =>
    if (List.lookup "refresh_token" fields).isNone
        ∨ (List.lookup "client_id" fields).isNone
        ∨ (List.lookup "client_secret" fields).isNone then
      .error .valueError
    else
      .ok ()
  | _ => .error .attributeError

/-- Python `value.get(key)`: returns the entry or `None` on a dict, raises
`AttributeError` on any non-dict value. -/
def dict_get (j : JVal) (k : String) : Except PyError (Option JVal) :=
  match j with
  | .objV fields => .ok (List.lookup k fields)
  | _ => .error .attributeError

/-- The dict comprehension dropping `quota_project_id` before
`from_authorized_user_info` in the Claude integration. -/
def removeQuotaProject : JVal → JVal
  | .objV fields => .objV (fields.filter fun kv => kv.1 ≠ "quota_project_id")
  | j => j

/-- The credential-construction `try` body of the Claude integration's
`async_setup_entry` (`claude_vertex_ai_conversation/__init__.py`): parse the
JSON (`.error` input models a `json.JSONDecodeError`), read the `type`
field, and branch: `service_account` and `authorized_user` build the
respective credential objects; any other type value raises
`ConfigEntryAuthFailed` directly. -/
def claude_resolve_credentials (credentials_json : Except Unit JVal) :
    Except PyError Unit :=
  match credentials_json with
  | .error _ => .error .jsonDecodeError
  | .ok credentials_info =>
    match dict_get credentials_info "type" with
    | .error e => .error e
    | .ok credential_type =>
      match credential_type with
      | some (.strV "service_account") =>
          from_service_account_info credentials_info
      | some (.strV "authorized_user") =>
          from_authorized_user_info (removeQuotaProject credentials_info)
      | _ => .error (.configEntryAuthFailed "Invalid credential type")

/-- The credential-construction `try` body of the Gemini integration's
`async_setup_entry` (`vertex_ai_conversation/__init__.py`): parse the JSON
and hand it straight to `from_service_account_info` (no type branch). -/
def gemini_resolve_credentials (credentials_json : Except Unit JVal) :
    Except PyError Unit :=
  match credentials_json with
  | .error _ => .error .jsonDecodeError
  | .ok service_account_info => from_service_account_info service_account_info

/-- The `except` clauses of the Claude credential block: `JSONDecodeError`,
`(KeyError, ValueError)` and `GoogleAuthError` are re-raised as
`ConfigEntryAuthFailed` with fixed messages; a `ConfigEntryAuthFailed`
raised inside the `try` matches none of them and propagates as itself; any
other exception class (such as `AttributeError` from calling `.get` on a
non-dict) is not caught and propagates. -/
def claude_map_cred_error : PyError → SetupOutcome
  | .jsonDecodeError => .authFailed "Credentials JSON is invalid or malformed"
  | .keyError => .authFailed "Credentials are missing required fields"
  | .valueError => .authFailed "Credentials are missing required fields"
  | .googleAuthError m => .authFailed ("Failed to authenticate with Google: " ++ m)
  | .configEntryAuthFailed m => .authFailed m
  | e => .uncaught e

/-- The `except` clauses of the Gemini credential block, with that module's
messages; uncatchable classes propagate as in the Claude integration. -/
def gemini_map_cred_error : PyError → SetupOutcome
  | .jsonDecodeError => .authFailed "Service account JSON is invalid or malformed"
  | .keyError => .authFailed "Service account credentials are missing required fields"
  | .valueError => .authFailed "Service account credentials are missing required fields"
  | .googleAuthError m => .authFailed ("Failed to authenticate with Google: " ++ m)
  | .configEntryAuthFailed m => .authFailed m
  | e => .uncaught e

/-- The second `try` block shared by both integrations: client construction
plus the live validation call (and, for Claude, the temp-file write), whose
behavior is the `validation` oracle.  `GoogleAuthError` becomes
`ConfigEntryAuthFailed`; every other exception becomes
`ConfigEntryNotReady`. -/
def run_validation : ValidationOutcome → SetupOutcome
  | .ok => .ok
  | .googleAuthError m => .authFailed ("Authentication failed: " ++ m)
  | .otherError m => .notReady ("Unable to connect to Vertex AI service: " ++ m)

/-- Embedding of the Claude integration's `async_setup_entry`
(`claude_vertex_ai_conversation/__init__.py`): credential construction with
its `except` mapping, then client construction and the validation call. -/
def claude_async_setup_entry (credentials_json : Except Unit JVal)
    (validation : ValidationOutcome) : SetupOutcome :=
  match claude_resolve_credentials credentials_json with
  | .error e => claude_map_cred_error e
  | .ok () => run_validation validation

/-- Embedding of the Gemini integration's `async_setup_entry`
(`vertex_ai_conversation/__init__.py`), same shape with the Gemini
credential block. -/
def gemini_async_setup_entry (credentials_json : Except Unit JVal)
    (validation : ValidationOutcome) : SetupOutcome :=
  match gemini_resolve_credentials credentials_json with
  | .error e => gemini_map_cred_error e
  | .ok () => run_validation validation

end Setup

namespace AITask

/-- A response `Part` as read by `_async_generate_data`: only its text is
consumed (the claim concerns text responses, so `text` is a string). -/
structure Part where
  text : String

/-- A candidate's `content`, holding the parts list. -/
structure CandContent where
  parts : List Part

/-- One response candidate; `content` may be `None`. -/
structure Candidate where
  content : Option CandContent

/-- The vendor response shape consumed by `_async_generate_data`. -/
structure Response where
  candidates : List Candidate

/-- Embedding of `VertexAITaskEntity._async_generate_data`
(`vertex_ai_conversation/ai_task.py`) from the vendor call onward.
`vendor` is the executor call (`.error` = raised exception, re-raised by
the `except` clause after logging); `json_loads` models `json.loads`
(`none` = `json.JSONDecodeError`); `has_schema` is whether the task
supplied a structure schema (`response_schema`).  The `.ok` payload is the
`data` dict of the returned `GenDataTaskResult`. -/
def _async_generate_data (json_loads : String → Option JVal)
    (has_schema : Bool) (vendor : Except String Response) :
    Except String JVal :=
  match vendor with
  | .error e => .error e
  | .ok response =>
    match response.candidates with
    | [] => .ok (.objV [("error", .strV "No valid response generated")])
    | candidate :: _ =>
      match candidate.content with
      | none => .ok (.objV [("error", .strV "No valid response generated")])
      | some content =>
        match content.parts with
        | [] => .ok (.objV [("error", .strV "No valid response generated")])
        | part :: _ =>
          let response_text := part.text
          if has_schema then
            match json_loads response_text with
            | some response_data => .ok response_data
            | none => .ok (.objV [("text", .strV response_text)])
          else
            .ok (.objV [("text", .strV response_text)])

end AITask

end VertexAI

/-! ## Theorems -/

open VertexAI

-- Helper: what both converters produce at an index holding a stored message.
theorem getElem_convert_of_lt (chat_log : List ChatMessage) (cur : String)
    (i : Nat) (m : ChatMessage) (h : chat_log[i]? = some m) :
    (Gemini._convert_chat_log_to_contents chat_log cur)[i]? =
      some { role := if m.role?.getD "user" = "assistant" then "model" else "user",
             partsText := [m.content?.getD ""] } ∧
    (Claude._convert_chat_log_to_messages chat_log cur)[i]? =
      some { role := m.role?.getD "user", content := m.content?.getD "" } := by
  have hi : i < chat_log.length := by
    have := List.getElem?_eq_some.mp h
    exact this.1
  constructor
  · unfold Gemini._convert_chat_log_to_contents
    rw [List.getElem?_append_left (by simpa using hi), List.getElem?_map, h]
    rfl
  · unfold Claude._convert_chat_log_to_messages
    rw [List.getElem?_append_left (by simpa using hi), List.getElem?_map, h]
    rfl

-- Helper: both converters place the new user turn at index N.
theorem getElem_convert_last (chat_log : List ChatMessage) (cur : String) :
    (Gemini._convert_chat_log_to_contents chat_log cur)[chat_log.length]? =
      some { role := "user", partsText := [cur] } ∧
    (Claude._convert_chat_log_to_messages chat_log cur)[chat_log.length]? =
      some { role := "user", content := cur } := by
  constructor
  · unfold Gemini._convert_chat_log_to_contents
    rw [List.getElem?_append_right (by simp)]
    simp
  · unfold Claude._convert_chat_log_to_messages
    rw [List.getElem?_append_right (by simp)]
    simp

/-- C1 (amended): when the vendor call raises, each adapter's
`_async_handle_message` returns normally (does not propagate) with the fixed
apology string as the speech text, and the chat log is returned unchanged —
neither the user turn nor the apology reply is appended (appending happens
only in the success path). -/
theorem c1_error_path_returns_apology
    (gv : List Gemini.Content → Except String String)
    (cv : List Claude.Message → Except String String)
    (chat_log : List ChatMessage) (user_input : String) (eg ec : String)
    (hg : gv (Gemini._convert_chat_log_to_contents chat_log user_input) =
      Except.error eg)
    (hc : cv (Claude._convert_chat_log_to_messages chat_log user_input) =
      Except.error ec) :
    Gemini._async_handle_message gv chat_log user_input =
      Except.ok { speech := error_message, conversation_id := chat_log } ∧
    Claude._async_handle_message cv chat_log user_input =
      Except.ok { speech := error_message, conversation_id := chat_log } := by
  unfold Gemini._async_handle_message Claude._async_handle_message
  rw [hg, hc]
  exact ⟨rfl, rfl⟩

/-- Witness for C1 (amended) at a concrete failing vendor and input. -/
theorem c1_error_path_returns_apology_witness :
    Gemini._async_handle_message (fun _ => Except.error "boom") [] "hi" =
      Except.ok { speech := error_message, conversation_id := [] } ∧
    Claude._async_handle_message (fun _ => Except.error "boom") [] "hi" =
      Except.ok { speech := error_message, conversation_id := [] } :=
  c1_error_path_returns_apology (fun _ => Except.error "boom")
    (fun _ => Except.error "boom") [] "hi" "boom" "boom" rfl rfl

/-- C1 counterexample: with an empty chat log, the user message `"hi"` and a
vendor call that raises, the Gemini adapter returns the apology but the
returned `conversation_id` is still the empty list — it is not the log with
the user turn and the apology reply appended, contradicting part (2) of the
claim. -/
theorem c1_counterexample :
    Gemini._async_handle_message (fun _ => Except.error "boom") [] "hi" =
      Except.ok { speech := error_message, conversation_id := [] } ∧
    ([] : List ChatMessage) ≠
      [{ role? := some "user", content? := some "hi" },
       { role? := some "assistant", content? := some error_message }] := by
  exact ⟨rfl, by simp⟩

/-- C2: feeding a log of N prior turns and one new message into either
converter yields exactly N+1 entries: entry i (i < N) is the i-th stored
turn in order — with `"assistant"` translated to `"model"` and every other
role to `"user"` for the Gemini adapter, and the stored role passed through
unchanged for the Claude adapter (whose vendor vocabulary is already
user/assistant) — and entry N is the new user turn with role `"user"`. -/
theorem c2_chat_log_round_trip (chat_log : List ChatMessage) (cur : String) :
    (Gemini._convert_chat_log_to_contents chat_log cur).length
        = chat_log.length + 1 ∧
    (Claude._convert_chat_log_to_messages chat_log cur).length
        = chat_log.length + 1 ∧
    (∀ (i : Nat) (m : ChatMessage), chat_log[i]? = some m →
      (Gemini._convert_chat_log_to_contents chat_log cur)[i]? =
        some { role := if m.role?.getD "user" = "assistant" then "model"
                        else "user",
               partsText := [m.content?.getD ""] } ∧
      (Claude._convert_chat_log_to_messages chat_log cur)[i]? =
        some { role := m.role?.getD "user",
               content := m.content?.getD "" }) ∧
    (Gemini._convert_chat_log_to_contents chat_log cur)[chat_log.length]? =
      some { role := "user", partsText := [cur] } ∧
    (Claude._convert_chat_log_to_messages chat_log cur)[chat_log.length]? =
      some { role := "user", content := cur } := by
  refine ⟨?_, ?_, ?_, (getElem_convert_last chat_log cur).1,
    (getElem_convert_last chat_log cur).2⟩
  · simp [Gemini._convert_chat_log_to_contents]
  · simp [Claude._convert_chat_log_to_messages]
  · intro i m h
    exact getElem_convert_of_lt chat_log cur i m h

/-- Witness for C2 at a concrete two-turn log. -/
theorem c2_chat_log_round_trip_witness :
    (Gemini._convert_chat_log_to_contents
        [{ role? := some "user", content? := some "q" },
         { role? := some "assistant", content? := some "a" }] "next")[1]? =
      some { role := "model", partsText := ["a"] } :=
  ((c2_chat_log_round_trip
      [{ role? := some "user", content? := some "q" },
       { role? := some "assistant", content? := some "a" }] "next").2.2.1
    1 { role? := some "assistant", content? := some "a" } rfl).1

/-- C10: the Gemini converter is total over malformed entries: a stored role
other than `"assistant"` (including unknown roles) maps to `"user"`, an
absent role key defaults to `"user"`, and an absent content key defaults to
the empty string; the converter is a total function, so conversion never
fails on any entry shape representable here. -/
theorem c10_gemini_converter_total_defaults (chat_log : List ChatMessage)
    (cur : String) (i : Nat) (m : ChatMessage)
    (h : chat_log[i]? = some m) :
    (∀ r, m.role? = some r → r ≠ "assistant" →
      ∃ c, (Gemini._convert_chat_log_to_contents chat_log cur)[i]? = some c ∧
        c.role = "user") ∧
    (m.role? = none →
      ∃ c, (Gemini._convert_chat_log_to_contents chat_log cur)[i]? = some c ∧
        c.role = "user") ∧
    (m.content? = none →
      ∃ c, (Gemini._convert_chat_log_to_contents chat_log cur)[i]? = some c ∧
        c.partsText = [""]) := by
  have hg := (getElem_convert_of_lt chat_log cur i m h).1
  refine ⟨?_, ?_, ?_⟩
  · intro r hr hne
    refine ⟨_, hg, ?_⟩
    simp [hr, hne]
  · intro hr
    refine ⟨_, hg, ?_⟩
    simp [hr]
  · intro hc
    refine ⟨_, hg, ?_⟩
    simp [hc]

/-- Witness for C10 at a concrete entry with an unknown role and no content. -/
theorem c10_gemini_converter_total_defaults_witness :
    ∃ c, (Gemini._convert_chat_log_to_contents
        [{ role? := some "system", content? := none }] "x")[0]? = some c ∧
      c.role = "user" :=
  (c10_gemini_converter_total_defaults
      [{ role? := some "system", content? := none }] "x" 0
      { role? := some "system", content? := none } rfl).1
    "system" rfl (by decide)

/-- C6: for every non-empty raw PCM byte string, MIME type
`"audio/L16;rate=16000"` yields a WAV container reporting 16000 Hz and
16-bit (2-byte-wide) samples, and MIME type `"audio/pcm"` yields the
defaults of 24000 Hz and 16-bit samples. -/
theorem c6_wav_conversion_rates (audio : List Nat) (h : audio ≠ []) :
    Helpers.convert_to_wav audio "audio/L16;rate=16000" =
      Except.ok { nchannels := 1, sampwidth := 2, framerate := 16000,
                  frames := audio } ∧
    Helpers.convert_to_wav audio "audio/pcm" =
      Except.ok { nchannels := 1, sampwidth := 2, framerate := 24000,
                  frames := audio } := by
  have h1 : Helpers._parse_audio_mime_type "audio/L16;rate=16000"
      = (16000, 16) := by rfl
  have h2 : Helpers._parse_audio_mime_type "audio/pcm" = (24000, 16) := by
    rfl
  have he : audio.isEmpty = false := by
    cases audio with
    | nil => exact absurd rfl h
    | cons a as => rfl
  constructor <;> simp [Helpers.convert_to_wav, he, h1, h2]

/-- Witness for C6 at a one-byte audio input. -/
theorem c6_wav_conversion_rates_witness :
    Helpers.convert_to_wav [0] "audio/pcm" =
      Except.ok { nchannels := 1, sampwidth := 2, framerate := 24000,
                  frames := [0] } :=
  (c6_wav_conversion_rates [0] (by simp)).2

/-- C9: for every MIME type string, `convert_to_wav` on an empty audio byte
string raises `ValueError("Audio data cannot be empty")` before any MIME
parsing or WAV writing, so an empty-input call never returns a container. -/
theorem c9_empty_audio_raises (mime_type : String) :
    Helpers.convert_to_wav [] mime_type =
      Except.error (Helpers.WavError.valueError "Audio data cannot be empty") :=
  rfl

-- Helper: a separator-free step is skipped, producing no record.
theorem executeScriptGo_cons_none (hs : String → String → Bool)
    (co : Nat → CustomTools.CallOutcome) (i : Nat) (hd : CustomTools.Step)
    (rest : List CustomTools.Step)
    (hsp : CustomTools.splitService hd.service = none) :
    CustomTools.executeScriptGo hs co i (hd :: rest) =
      CustomTools.executeScriptGo hs co (i + 1) rest := by
  simp only [CustomTools.executeScriptGo, hsp]

-- Helper: a step with a separator contributes exactly its `stepRecord`.
theorem executeScriptGo_cons_some (hs : String → String → Bool)
    (co : Nat → CustomTools.CallOutcome) (i : Nat) (hd : CustomTools.Step)
    (rest : List CustomTools.Step) (d sv : String)
    (hsp : CustomTools.splitService hd.service = some (d, sv)) :
    CustomTools.executeScriptGo hs co i (hd :: rest) =
      CustomTools.stepRecord hs co i hd ::
        CustomTools.executeScriptGo hs co (i + 1) rest := by
  simp only [CustomTools.executeScriptGo, CustomTools.stepRecord, hsp]
  cases hhs : hs d sv <;> simp [hhs]

-- Helper: record count equals the number of separator-bearing steps.
theorem executeScriptGo_length (hs : String → String → Bool)
    (co : Nat → CustomTools.CallOutcome) (seq : List CustomTools.Step) :
    ∀ i : Nat, (CustomTools.executeScriptGo hs co i seq).length =
      (seq.filter fun s => (CustomTools.splitService s.service).isSome).length := by
  induction seq with
  | nil => intro i; rfl
  | cons hd rest ih =>
    intro i
    cases hsp : CustomTools.splitService hd.service with
    | none =>
      rw [executeScriptGo_cons_none hs co i hd rest hsp]
      simp [List.filter, hsp, ih]
    | some dsv =>
      obtain ⟨d, sv⟩ := dsv
      rw [executeScriptGo_cons_some hs co i hd rest d sv hsp]
      simp [List.filter, hsp, ih]

-- Helper: under the all-separators hypothesis, position i of the results is
-- the record of step i.
theorem executeScriptGo_getElem (hs : String → String → Bool)
    (co : Nat → CustomTools.CallOutcome) (seq : List CustomTools.Step)
    (hsep : ∀ s ∈ seq, (CustomTools.splitService s.service).isSome = true) :
    ∀ (j i : Nat) (s : CustomTools.Step), seq[i]? = some s →
      (CustomTools.executeScriptGo hs co j seq)[i]? =
        some (CustomTools.stepRecord hs co (j + i) s) := by
  induction seq with
  | nil => intro j i s h; simp at h
  | cons hd rest ih =>
    intro j i s h
    have hhd : (CustomTools.splitService hd.service).isSome = true :=
      hsep hd (by simp)
    obtain ⟨dsv, hsp⟩ := Option.isSome_iff_exists.mp hhd
    obtain ⟨d, sv⟩ := dsv
    rw [executeScriptGo_cons_some hs co j hd rest d sv hsp]
    cases i with
    | zero =>
      simp at h
      subst h
      simp
    | succ n =>
      simp only [List.getElem?_cons_succ] at h
      have := ih (fun s hm => hsep s (by simp [hm])) (j + 1) n s h
      simpa [Nat.add_assoc, Nat.add_comm 1 n] using this

/-- C5 (amended): a step whose service does not exist, or whose call fails
or times out, contributes a failure record with an explanatory message and
does not abort the remaining steps; but only steps whose service string
contains a `/` or `.` separator contribute records — a step with an invalid
service format (for example a missing `service` key) is skipped with a
warning and contributes no record.  Hence the aggregate result has one
record per separator-bearing step, in order, and when every step has a
separator it lists exactly one outcome per step. -/
theorem c5_per_step_outcomes (hs : String → String → Bool)
    (co : Nat → CustomTools.CallOutcome) (seq : List CustomTools.Step)
    (hsep : ∀ s ∈ seq, (CustomTools.splitService s.service).isSome = true) :
    (CustomTools._execute_script hs co seq).length = seq.length ∧
    ∀ (i : Nat) (s : CustomTools.Step), seq[i]? = some s →
      (CustomTools._execute_script hs co seq)[i]? =
        some (CustomTools.stepRecord hs co i s) := by
  constructor
  · rw [CustomTools._execute_script, executeScriptGo_length hs co seq 0]
    congr 1
    conv_rhs => rw [← List.filter_eq_self.mpr hsep]
  · intro i s h
    have := executeScriptGo_getElem hs co seq hsep 0 i s h
    simpa using this

/-- Witness for C5 (amended): a two-step sequence whose second step names a
service that does not exist; the second record is that step's failure
record. -/
theorem c5_per_step_outcomes_witness :
    (CustomTools._execute_script (fun d _ => d == "light")
        (fun _ => CustomTools.CallOutcome.success)
        [{ service := "light.turn_on" }, { service := "switch.toggle" }])[1]? =
      some (CustomTools.stepRecord (fun d _ => d == "light")
        (fun _ => CustomTools.CallOutcome.success) 1
        { service := "switch.toggle" }) :=
  (c5_per_step_outcomes (fun d _ => d == "light")
      (fun _ => CustomTools.CallOutcome.success)
      [{ service := "light.turn_on" }, { service := "switch.toggle" }]
      (by decide)).2 1 { service := "switch.toggle" } rfl

/-- C5 counterexample: in a three-step sequence whose middle step has a
separator-free service string (as when the `service` key is missing), the
executor returns only two records — the middle step contributes no
success/failure record at all, so the aggregate is not one record per step.
Steps 1 and 3 still execute. -/
theorem c5_counterexample :
    CustomTools._execute_script (fun _ _ => true)
        (fun _ => CustomTools.CallOutcome.success)
        [{ service := "light.turn_on" }, { service := "" },
         { service := "light.turn_off" }] =
      [{ service := "light.turn_on", success := true, error := none },
       { service := "light.turn_off", success := true, error := none }] ∧
    ([{ service := "light.turn_on", success := true, error := none },
      { service := "light.turn_off", success := true, error := none }] :
        List CustomTools.StepResult).length ≠ 3 := by
  exact ⟨rfl, by decide⟩

-- Helper: dropping `quota_project_id` entries cannot make another key
-- present.
theorem lookup_filter_quota_none (fields : List (String × JVal)) (k : String)
    (h : List.lookup k fields = none) :
    List.lookup k (fields.filter fun kv => kv.1 ≠ "quota_project_id")
      = none := by
  induction fields with
  | nil => rfl
  | cons kv rest ih =>
    simp only [List.lookup] at h
    cases hk : (k == kv.1) with
    | true => rw [hk] at h; exact absurd h (by simp)
    | false =>
      rw [hk] at h
      rw [List.filter_cons]
      by_cases hq : kv.1 ≠ "quota_project_id"
      · rw [if_pos (by simp [hq])]
        simp only [List.lookup, hk]
        exact ih h
      · rw [if_neg (by simp [hq])]
        exact ih h

/-- C3 (amended): credential JSON that is malformed, or is an object missing
a required field, or has an invalid `type` value, makes setup fail with the
authentication-failure outcome — and the not-ready outcome can only arise
after credential construction succeeded, from a non-auth exception in the
client-construction/validation phase.  However, a credential JSON whose
top-level value is not an object does not reach those `except` clauses in
the Claude integration: `credentials_info.get("type")` raises an uncaught
`AttributeError` (see the counterexample), so the amended guarantee is
stated for object-shaped inputs. -/
theorem c3_credential_failures (v : Setup.ValidationOutcome) :
    (Setup.claude_async_setup_entry (Except.error ()) v =
        Setup.SetupOutcome.authFailed "Credentials JSON is invalid or malformed" ∧
      Setup.gemini_async_setup_entry (Except.error ()) v =
        Setup.SetupOutcome.authFailed
          "Service account JSON is invalid or malformed") ∧
    (∀ fields : List (String × JVal),
      List.lookup "type" fields = some (JVal.strV "service_account") →
      ((List.lookup "client_email" fields).isNone
        ∨ (List.lookup "token_uri" fields).isNone
        ∨ (List.lookup "private_key" fields).isNone) →
      (Setup.claude_async_setup_entry (Except.ok (JVal.objV fields))
        v).isAuthFailed = true) ∧
    (∀ fields : List (String × JVal),
      List.lookup "type" fields = some (JVal.strV "authorized_user") →
      ((List.lookup "refresh_token" fields).isNone
        ∨ (List.lookup "client_id" fields).isNone
        ∨ (List.lookup "client_secret" fields).isNone) →
      (Setup.claude_async_setup_entry (Except.ok (JVal.objV fields))
        v).isAuthFailed = true) ∧
    (∀ (fields : List (String × JVal)) (s : String),
      List.lookup "type" fields = some (JVal.strV s) →
      s ≠ "service_account" → s ≠ "authorized_user" →
      (Setup.claude_async_setup_entry (Except.ok (JVal.objV fields))
        v).isAuthFailed = true) ∧
    (∀ fields : List (String × JVal),
      List.lookup "type" fields = none →
      (Setup.claude_async_setup_entry (Except.ok (JVal.objV fields))
        v).isAuthFailed = true) ∧
    (∀ fields : List (String × JVal),
      ((List.lookup "client_email" fields).isNone
        ∨ (List.lookup "token_uri" fields).isNone
        ∨ (List.lookup "private_key" fields).isNone) →
      (Setup.gemini_async_setup_entry (Except.ok (JVal.objV fields))
        v).isAuthFailed = true) ∧
    (∀ cj : Except Unit JVal,
      (Setup.claude_async_setup_entry cj v).isNotReady = true →
      Setup.claude_resolve_credentials cj = Except.ok ()
        ∧ v.isOtherError = true) ∧
    (∀ cj : Except Unit JVal,
      (Setup.gemini_async_setup_entry cj v).isNotReady = true →
      Setup.gemini_resolve_credentials cj = Except.ok ()
        ∧ v.isOtherError = true) := by
  have hsa : ∀ fields : List (String × JVal),
      ((List.lookup "client_email" fields).isNone
        ∨ (List.lookup "token_uri" fields).isNone
        ∨ (List.lookup "private_key" fields).isNone) →
      ∃ e, Setup.from_service_account_info (JVal.objV fields)
          = Except.error e ∧ (e = Setup.PyError.valueError
            ∨ e = Setup.PyError.keyError) := by
    intro fields hmiss
    simp only [Setup.from_service_account_info]
    by_cases h1 : (List.lookup "client_email" fields).isNone
        ∨ (List.lookup "token_uri" fields).isNone
    · rw [if_pos h1]
      exact ⟨_, rfl, Or.inl rfl⟩
    · rw [if_neg h1]
      have h3 : (List.lookup "private_key" fields).isNone = true := by
        rcases hmiss with h | h | h
        · exact absurd (Or.inl h) h1
        · exact absurd (Or.inr h) h1
        · exact h
      rw [if_pos h3]
      exact ⟨_, rfl, Or.inr rfl⟩
  refine ⟨⟨rfl, rfl⟩, ?_, ?_, ?_, ?_, ?_, ?_, ?_⟩
  · intro fields htype hmiss
    obtain ⟨e, he, hcase⟩ := hsa fields hmiss
    simp only [Setup.claude_async_setup_entry, Setup.claude_resolve_credentials,
      Setup.dict_get, htype, he]
    rcases hcase with h | h <;> subst h <;> rfl
  · intro fields htype hmiss
    have hmiss2 : (List.lookup "refresh_token"
          (fields.filter fun kv => kv.1 ≠ "quota_project_id")).isNone
        ∨ (List.lookup "client_id"
          (fields.filter fun kv => kv.1 ≠ "quota_project_id")).isNone
        ∨ (List.lookup "client_secret"
          (fields.filter fun kv => kv.1 ≠ "quota_project_id")).isNone := by
      rcases hmiss with h | h | h
      · exact Or.inl (Option.isNone_iff_eq_none.mpr
          (lookup_filter_quota_none fields "refresh_token"
            (Option.isNone_iff_eq_none.mp h)))
      · exact Or.inr (Or.inl (Option.isNone_iff_eq_none.mpr
          (lookup_filter_quota_none fields "client_id"
            (Option.isNone_iff_eq_none.mp h))))
      · exact Or.inr (Or.inr (Option.isNone_iff_eq_none.mpr
          (lookup_filter_quota_none fields "client_secret"
            (Option.isNone_iff_eq_none.mp h))))
    simp only [Setup.claude_async_setup_entry, Setup.claude_resolve_credentials,
      Setup.dict_get, htype, Setup.removeQuotaProject,
      Setup.from_authorized_user_info]
    rw [if_pos hmiss2]
    rfl
  · intro fields s htype hs1 hs2
    simp only [Setup.claude_async_setup_entry, Setup.claude_resolve_credentials,
      Setup.dict_get, htype]
    have : (match some (JVal.strV s) with
        | some (JVal.strV "service_account") =>
            Setup.from_service_account_info (JVal.objV fields)
        | some (JVal.strV "authorized_user") =>
            Setup.from_authorized_user_info
              (Setup.removeQuotaProject (JVal.objV fields))
        | _ => Except.error (Setup.PyError.configEntryAuthFailed
            "Invalid credential type")) =
        Except.error (Setup.PyError.configEntryAuthFailed
          "Invalid credential type") := by
      rcases hstr : s with ⟨chars⟩
      subst hstr
      by_cases hc1 : String.mk chars = "service_account"
      · exact absurd hc1 hs1
      · by_cases hc2 : String.mk chars = "authorized_user"
        · exact absurd hc2 hs2
        · simp [hc1, hc2]
    rw [this]
    rfl
  · intro fields htype
    simp only [Setup.claude_async_setup_entry, Setup.claude_resolve_credentials,
      Setup.dict_get, htype]
    rfl
  · intro fields hmiss
    obtain ⟨e, he, hcase⟩ := hsa fields hmiss
    simp only [Setup.gemini_async_setup_entry, Setup.gemini_resolve_credentials,
      he]
    rcases hcase with h | h <;> subst h <;> rfl
  · intro cj hnr
    cases hres : Setup.claude_resolve_credentials cj with
    | error e =>
      rw [Setup.claude_async_setup_entry, hres] at hnr
      cases e <;> simp [Setup.claude_map_cred_error,
        Setup.SetupOutcome.isNotReady] at hnr
    | ok u =>
      cases u
      rw [Setup.claude_async_setup_entry, hres] at hnr
      cases v with
      | ok => simp [Setup.run_validation, Setup.SetupOutcome.isNotReady] at hnr
      | googleAuthError m =>
        simp [Setup.run_validation, Setup.SetupOutcome.isNotReady] at hnr
      | otherError m => exact ⟨rfl, rfl⟩
  · intro cj hnr
    cases hres : Setup.gemini_resolve_credentials cj with
    | error e =>
      rw [Setup.gemini_async_setup_entry, hres] at hnr
      cases e <;> simp [Setup.gemini_map_cred_error,
        Setup.SetupOutcome.isNotReady] at hnr
    | ok u =>
      cases u
      rw [Setup.gemini_async_setup_entry, hres] at hnr
      cases v with
      | ok => simp [Setup.run_validation, Setup.SetupOutcome.isNotReady] at hnr
      | googleAuthError m =>
        simp [Setup.run_validation, Setup.SetupOutcome.isNotReady] at hnr
      | otherError m => exact ⟨rfl, rfl⟩

/-- Witness for C3 (amended): a service-account object missing its
`client_email` (and the other required fields) yields the
authentication-failure outcome. -/
theorem c3_credential_failures_witness :
    (Setup.claude_async_setup_entry
        (Except.ok (JVal.objV [("type", JVal.strV "service_account")]))
        Setup.ValidationOutcome.ok).isAuthFailed = true :=
  (c3_credential_failures Setup.ValidationOutcome.ok).2.1
    [("type", JVal.strV "service_account")] rfl (Or.inl rfl)

/-- C3 counterexample: the credential JSON `[]` parses successfully but is
not an object, so it is missing every required field; the claim then
demands an authentication-failure outcome, yet the Claude integration's
`credentials_info.get("type")` raises `AttributeError`, which none of the
`except` clauses catch — setup ends with an uncaught exception, not
`ConfigEntryAuthFailed`. -/
theorem c3_counterexample :
    Setup.claude_async_setup_entry (Except.ok (JVal.arrV []))
        Setup.ValidationOutcome.ok =
      Setup.SetupOutcome.uncaught Setup.PyError.attributeError ∧
    (Setup.claude_async_setup_entry (Except.ok (JVal.arrV []))
        Setup.ValidationOutcome.ok).isAuthFailed = false := by
  exact ⟨rfl, rfl⟩

/-- C7: when a response schema is supplied and the vendor returns a text
response, the AI-task adapter parses that text as JSON and returns the
parsed value as the task data; when parsing fails it returns the raw text
wrapped under a `"text"` key, still a normal (non-failing) result. -/
theorem c7_structured_output_fallback
    (json_loads : String → Option JVal)
    (response : AITask.Response) (candidate : AITask.Candidate)
    (rest : List AITask.Candidate) (content : AITask.CandContent)
    (part : AITask.Part) (parts_rest : List AITask.Part)
    (hcand : response.candidates = candidate :: rest)
    (hcontent : candidate.content = some content)
    (hparts : content.parts = part :: parts_rest) :
    (∀ j : JVal, json_loads part.text = some j →
      AITask._async_generate_data json_loads true (Except.ok response)
        = Except.ok j) ∧
    (json_loads part.text = none →
      AITask._async_generate_data json_loads true (Except.ok response)
        = Except.ok (JVal.objV [("text", JVal.strV part.text)])) := by
  constructor
  · intro j hj
    simp only [AITask._async_generate_data, hcand, hcontent, hparts, hj,
      if_true]
  · intro hj
    simp only [AITask._async_generate_data, hcand, hcontent, hparts, hj,
      if_true]

/-- Witness for C7 at a concrete one-candidate response whose text does not
parse as JSON, with a parser that only accepts the text `"42"`. -/
theorem c7_structured_output_fallback_witness :
    AITask._async_generate_data
        (fun s => if s = "42" then some (JVal.numV 42) else none) true
        (Except.ok { candidates :=
          [{ content := some { parts := [{ text := "not json" }] } }] })
      = Except.ok (JVal.objV [("text", JVal.strV "not json")]) :=
  (c7_structured_output_fallback
      (fun s => if s = "42" then some (JVal.numV 42) else none)
      { candidates :=
        [{ content := some { parts := [{ text := "not json" }] } }] }
      { content := some { parts := [{ text := "not json" }] } } []
      { parts := [{ text := "not json" }] } { text := "not json" } []
      rfl rfl rfl).2 (by simp)

-- Helper: with every parameter conversion succeeding, the loop returns
-- normally and the loaded tool names are the first occurrences of the
-- non-reserved definition names, in order.
theorem parseLoopGo_ok_names (defs : List CustomTools.ToolDefV)
    (hconv : ∀ d ∈ defs,
      (CustomTools._convert_parameters_to_schema d.parameters).isOk = true) :
    ∀ seen : List String, ∃ ts ls,
      CustomTools.parseLoopGo seen defs = Except.ok (ts, ls) ∧
      ts.map (fun t => t.name) =
        CustomTools.dedupFirstGo seen
          ((defs.map fun d => d.name).filter
            fun n => !(CustomTools.RESERVED_NAMES.contains n)) := by
  induction defs with
  | nil => exact fun seen => ⟨[], [], rfl, rfl⟩
  | cons d rest ih =>
    intro seen
    have hcr : ∀ x ∈ rest,
        (CustomTools._convert_parameters_to_schema x.parameters).isOk
          = true :=
      fun x hx => hconv x (List.mem_cons_of_mem d hx)
    by_cases hres : CustomTools.RESERVED_NAMES.contains d.name = true
    · have hmem : d.name ∈ CustomTools.RESERVED_NAMES := by simpa using hres
      obtain ⟨ts, ls, hok, hnames⟩ := ih hcr seen
      refine ⟨ts, .reservedName d.name :: ls, ?_, ?_⟩
      · simp only [CustomTools.parseLoopGo, hres, if_true, hok]
      · rw [hnames]
        simp [List.filter_cons, hmem]
    · have hmem : d.name ∉ CustomTools.RESERVED_NAMES := by simpa using hres
      by_cases hseen : seen.contains d.name = true
      · have hseenm : d.name ∈ seen := by simpa using hseen
        obtain ⟨ts, ls, hok, hnames⟩ := ih hcr seen
        refine ⟨ts, .duplicateName d.name :: ls, ?_, ?_⟩
        · simp only [CustomTools.parseLoopGo, hres, Bool.false_eq_true,
            if_false, hseen, if_true, hok]
        · rw [hnames]
          simp [List.filter_cons, hmem, CustomTools.dedupFirstGo, hseenm]
      · have hc := hconv d (List.mem_cons_self d rest)
        obtain ⟨ps, hps⟩ : ∃ ps,
            CustomTools._convert_parameters_to_schema d.parameters
              = Except.ok ps := by
          cases hcc : CustomTools._convert_parameters_to_schema d.parameters
          · rw [hcc] at hc
            exact absurd hc (by simp [Except.isOk, Except.toBool])
          · exact ⟨_, rfl⟩
        obtain ⟨ts, ls, hok, hnames⟩ := ih hcr (d.name :: seen)
        refine ⟨CustomTools.CustomToolV.mk d.name d.description ps
            d.funcType d.sequence :: ts, ls, ?_, ?_⟩
        · simp only [CustomTools.parseLoopGo, hres, Bool.false_eq_true,
            if_false, hseen, hps, hok]
        · have hseenm : d.name ∉ seen := by simpa using hseen
          simp only [List.map_cons]
          rw [hnames]
          simp [List.filter_cons, hmem, CustomTools.dedupFirstGo, hseenm]

-- Helper: a name that occurs at least twice among the non-reserved names
-- (or once while already seen) gets a duplicate log entry.
theorem parseLoopGo_dup_logged (nm : String)
    (hnm : CustomTools.RESERVED_NAMES.contains nm = false) :
    ∀ (defs : List CustomTools.ToolDefV) (seen : List String)
      (ts : List CustomTools.CustomToolV)
      (ls : List CustomTools.LogEntry),
      CustomTools.parseLoopGo seen defs = Except.ok (ts, ls) →
      (2 ≤ (defs.map fun d => d.name).count nm
        ∨ (1 ≤ (defs.map fun d => d.name).count nm
            ∧ seen.contains nm = true)) →
      CustomTools.LogEntry.duplicateName nm ∈ ls := by
  intro defs
  induction defs with
  | nil =>
    intro seen ts ls hok h2
    rcases h2 with h | h
    · simp at h
    · simp at h
  | cons d rest ih =>
    intro seen ts ls hok h2
    by_cases hres : CustomTools.RESERVED_NAMES.contains d.name = true
    · have hdn : d.name ≠ nm := by
        intro he
        rw [he] at hres
        rw [hres] at hnm
        exact absurd hnm (by simp)
      simp only [CustomTools.parseLoopGo, hres, if_true] at hok
      cases hrec : CustomTools.parseLoopGo seen rest with
      | error e => rw [hrec] at hok; exact absurd hok (by simp)
      | ok p =>
        obtain ⟨ts2, ls2⟩ := p
        rw [hrec] at hok
        have hls : ls = .reservedName d.name :: ls2 := by
          have := congrArg Prod.snd (Except.ok.inj hok)
          exact this.symm
        have hdn2 : (nm == d.name) = false :=
          beq_eq_false_iff_ne.mpr fun hh => hdn hh.symm
        have hcount : ((d :: rest).map fun x => x.name).count nm
            = (rest.map fun x => x.name).count nm := by
          simp [List.count_cons, hdn2, hdn]
        rw [hcount] at h2
        have hmem := ih seen ts2 ls2 hrec h2
        rw [hls]
        exact List.mem_cons_of_mem _ hmem
    · by_cases hseen : seen.contains d.name = true
      · simp only [CustomTools.parseLoopGo, hres, Bool.false_eq_true,
          if_false, hseen, if_true] at hok
        cases hrec : CustomTools.parseLoopGo seen rest with
        | error e => rw [hrec] at hok; exact absurd hok (by simp)
        | ok p =>
          obtain ⟨ts2, ls2⟩ := p
          rw [hrec] at hok
          have hls : ls = .duplicateName d.name :: ls2 := by
            have := congrArg Prod.snd (Except.ok.inj hok)
            exact this.symm
          by_cases hdn : d.name = nm
          · rw [hls, hdn]
            exact List.mem_cons_self _ _
          · have hdn2 : (nm == d.name) = false :=
              beq_eq_false_iff_ne.mpr fun hh => hdn (hh.symm)
            have hcount : ((d :: rest).map fun x => x.name).count nm
                = (rest.map fun x => x.name).count nm := by
              simp [List.count_cons, hdn2, hdn]
            rw [hcount] at h2
            have hmem := ih seen ts2 ls2 hrec h2
            rw [hls]
            exact List.mem_cons_of_mem _ hmem
      · simp only [CustomTools.parseLoopGo, hres, Bool.false_eq_true,
          if_false, hseen] at hok
        cases hcc : CustomTools._convert_parameters_to_schema d.parameters with
        | error e => rw [hcc] at hok; exact absurd hok (by simp)
        | ok ps =>
          rw [hcc] at hok
          cases hrec : CustomTools.parseLoopGo (d.name :: seen) rest with
          | error e => rw [hrec] at hok; exact absurd hok (by simp)
          | ok p =>
            obtain ⟨ts2, ls2⟩ := p
            rw [hrec] at hok
            have hls : ls = ls2 := by
              have := congrArg Prod.snd (Except.ok.inj hok)
              exact this.symm
            rw [hls]
            by_cases hdn : d.name = nm
            · subst hdn
              have hcount2 : 1 ≤ (rest.map fun x => x.name).count d.name := by
                rcases h2 with h | h
                · have hc2 : ((d :: rest).map fun x => x.name).count d.name
                      = (rest.map fun x => x.name).count d.name + 1 := by
                    simp [List.count_cons]
                  rw [hc2] at h
                  omega
                · exact absurd h.2 hseen
              exact ih (d.name :: seen) ts2 ls2 hrec
                (Or.inr ⟨hcount2, by simp⟩)
            · have hdn2 : (nm == d.name) = false :=
                beq_eq_false_iff_ne.mpr fun hh => hdn (hh.symm)
              have hcount : ((d :: rest).map fun x => x.name).count nm
                  = (rest.map fun x => x.name).count nm := by
                simp [List.count_cons, hdn2, hdn]
              rw [hcount] at h2
              have hseen2 : (d.name :: seen).contains nm = seen.contains nm := by
                simp [List.contains_cons, hdn2]
                intro hh
                exact absurd hh.symm hdn
              rcases h2 with h | h
              · exact ih (d.name :: seen) ts2 ls2 hrec (Or.inl h)
              · exact ih (d.name :: seen) ts2 ls2 hrec
                  (Or.inr ⟨h.1, by rw [hseen2]; exact h.2⟩)

-- Helper: deduplication only returns names from its input.
theorem mem_dedupFirstGo (nm : String) :
    ∀ (xs : List String) (seen : List String),
      nm ∈ CustomTools.dedupFirstGo seen xs → nm ∈ xs := by
  intro xs
  induction xs with
  | nil =>
    intro seen h
    exact absurd h (by simp [CustomTools.dedupFirstGo])
  | cons x rest ih =>
    intro seen h
    simp only [CustomTools.dedupFirstGo] at h
    by_cases hx : seen.contains x = true
    · rw [if_pos hx] at h
      exact List.mem_cons_of_mem _ (ih seen h)
    · rw [if_neg hx] at h
      rcases List.mem_cons.mp h with h1 | h1
      · exact h1 ▸ List.mem_cons_self _ _
      · exact List.mem_cons_of_mem _ (ih (x :: seen) h1)

/-- C4 (amended): for a schema-valid tool-definition list in which every
definition's parameter specification converts successfully, the loader
keeps, in order, exactly the first occurrence of each non-reserved name —
a later definition with an already-loaded name is skipped and a
duplicate-name entry is logged — and every definition named with the
reserved name `web_search` is rejected and never loaded.  (When the
duplicated name is itself `web_search` neither copy is loaded, and a
definition whose parameters fail conversion aborts the whole load; see the
counterexample.) -/
theorem c4_loader_first_occurrence_and_reserved
    (yaml_config : String) (cfg : JVal)
    (defs : List CustomTools.ToolDefV)
    (ts : List CustomTools.CustomToolV) (ls : List CustomTools.LogEntry)
    (hne : yaml_config.data.all Char.isWhitespace = false)
    (hfa : cfg.isFalsy = false)
    (hschema : CustomTools.TOOLS_SCHEMA cfg = Except.ok defs)
    (hconv : ∀ d ∈ defs,
      (CustomTools._convert_parameters_to_schema d.parameters).isOk = true)
    (hrun : CustomTools.parse_custom_tools yaml_config (Except.ok cfg)
      = (ts, ls)) :
    ts.map (fun t => t.name) =
      CustomTools.dedupFirstGo []
        ((defs.map fun d => d.name).filter
          fun n => !(CustomTools.RESERVED_NAMES.contains n)) ∧
    (∀ nm, CustomTools.RESERVED_NAMES.contains nm = false →
      2 ≤ ((defs.map fun d => d.name).count nm) →
      CustomTools.LogEntry.duplicateName nm ∈ ls) ∧
    (∀ t ∈ ts, t.name ≠ "web_search") := by
  obtain ⟨ts0, ls0, hok, hnames⟩ := parseLoopGo_ok_names defs hconv []
  have hpipe : CustomTools.parse_custom_tools yaml_config (Except.ok cfg)
      = (ts0, ls0) := by
    simp only [CustomTools.parse_custom_tools, hne, Bool.false_eq_true,
      if_false, hfa, hschema, hok]
  rw [hrun] at hpipe
  have hts : ts = ts0 := congrArg Prod.fst hpipe
  have hls : ls = ls0 := congrArg Prod.snd hpipe
  subst hts
  subst hls
  refine ⟨hnames, ?_, ?_⟩
  · intro nm hn h2
    exact parseLoopGo_dup_logged nm hn defs [] ts ls hok (Or.inl h2)
  · intro t ht hws
    have h1 : t.name ∈ ts.map (fun t => t.name) :=
      List.mem_map_of_mem _ ht
    rw [hnames] at h1
    have h2 := mem_dedupFirstGo t.name _ [] h1
    have h3 := (List.mem_filter.mp h2).2
    rw [hws] at h3
    simp [CustomTools.RESERVED_NAMES] at h3

/-- Witness for C4 (amended): a three-definition list — `a`, `a` again, and
`web_search` — loads just the first `a` and logs the duplicate. -/
theorem c4_loader_first_occurrence_and_reserved_witness :
    CustomTools.LogEntry.duplicateName "a" ∈
      [CustomTools.LogEntry.duplicateName "a",
       CustomTools.LogEntry.reservedName "web_search"] :=
  (c4_loader_first_occurrence_and_reserved "tools"
      (JVal.arrV
        [JVal.objV [("spec", JVal.objV [("name", JVal.strV "a"),
            ("description", JVal.strV "d"),
            ("parameters", JVal.objV [])]),
          ("function", JVal.objV [("type", JVal.strV "script")])],
         JVal.objV [("spec", JVal.objV [("name", JVal.strV "a"),
            ("description", JVal.strV "d"),
            ("parameters", JVal.objV [])]),
          ("function", JVal.objV [("type", JVal.strV "script")])],
         JVal.objV [("spec", JVal.objV [("name", JVal.strV "web_search"),
            ("description", JVal.strV "d"),
            ("parameters", JVal.objV [])]),
          ("function", JVal.objV [("type", JVal.strV "script")])]])
      [CustomTools.ToolDefV.mk "a" "d" [] "script" none,
       CustomTools.ToolDefV.mk "a" "d" [] "script" none,
       CustomTools.ToolDefV.mk "web_search" "d" [] "script" none]
      [CustomTools.CustomToolV.mk "a" "d" [] "script" none]
      [CustomTools.LogEntry.duplicateName "a",
       CustomTools.LogEntry.reservedName "web_search"]
      (by decide) rfl rfl (by decide) rfl).2.1 "a" rfl (by decide)

/-- C4 counterexample: two refutations of the claim as stated.  First, a
list whose two same-named definitions both bear the name `web_search` loads
zero tools, not "exactly one of them", and logs two reserved-name entries
rather than a duplicate.  Second, a list whose two definitions share the
name `a` but whose first definition has a non-dict `properties` value
aborts the whole load with the logged `AttributeError` from
`properties.items()` — again zero tools and no duplicate log entry. -/
theorem c4_counterexample :
    CustomTools.parse_custom_tools "tools"
        (Except.ok (JVal.arrV
          [JVal.objV [("spec", JVal.objV [("name", JVal.strV "web_search"),
              ("description", JVal.strV "d"),
              ("parameters", JVal.objV [])]),
            ("function", JVal.objV [("type", JVal.strV "script")])],
           JVal.objV [("spec", JVal.objV [("name", JVal.strV "web_search"),
              ("description", JVal.strV "d"),
              ("parameters", JVal.objV [])]),
            ("function", JVal.objV [("type", JVal.strV "script")])]]))
      = ([], [CustomTools.LogEntry.reservedName "web_search",
              CustomTools.LogEntry.reservedName "web_search"]) ∧
    ([] : List CustomTools.CustomToolV).length ≠ 1 ∧
    CustomTools.parse_custom_tools "tools"
        (Except.ok (JVal.arrV
          [JVal.objV [("spec", JVal.objV [("name", JVal.strV "a"),
              ("description", JVal.strV "d"),
              ("parameters", JVal.objV [("properties", JVal.arrV [])])]),
            ("function", JVal.objV [("type", JVal.strV "script")])],
           JVal.objV [("spec", JVal.objV [("name", JVal.strV "a"),
              ("description", JVal.strV "d"),
              ("parameters", JVal.objV [])]),
            ("function", JVal.objV [("type", JVal.strV "script")])]]))
      = ([], [CustomTools.LogEntry.unexpected "AttributeError: items"]) := by
  exact ⟨rfl, by decide, rfl⟩

/-- C8: the loader never raises — the embedding is a total function, and
each failure class of the `try`/`except` is converted into a logged entry
with an empty tool list: malformed YAML (`yaml.YAMLError`), a schema
violation (`vol.Invalid`), and any unexpected exception from the
construction loop (`except Exception`). -/
theorem c8_loader_never_raises (yaml_config : String)
    (yaml_load : Except String JVal) :
    (∃ ts ls,
      CustomTools.parse_custom_tools yaml_config yaml_load = (ts, ls)) ∧
    (∀ e, yaml_load = Except.error e → yaml_config.data.all Char.isWhitespace = false →
      CustomTools.parse_custom_tools yaml_config yaml_load
        = ([], [CustomTools.LogEntry.yamlInvalid e])) ∧
    (∀ cfg e, yaml_load = Except.ok cfg →
      yaml_config.data.all Char.isWhitespace = false → cfg.isFalsy = false →
      CustomTools.TOOLS_SCHEMA cfg = Except.error e →
      CustomTools.parse_custom_tools yaml_config yaml_load
        = ([], [CustomTools.LogEntry.schemaInvalid e])) ∧
    (∀ cfg defs e, yaml_load = Except.ok cfg →
      yaml_config.data.all Char.isWhitespace = false → cfg.isFalsy = false →
      CustomTools.TOOLS_SCHEMA cfg = Except.ok defs →
      CustomTools.parseLoopGo [] defs = Except.error e →
      CustomTools.parse_custom_tools yaml_config yaml_load
        = ([], [CustomTools.LogEntry.unexpected e])) := by
  refine ⟨⟨_, _, rfl⟩, ?_, ?_, ?_⟩
  · intro e he hne
    subst he
    simp only [CustomTools.parse_custom_tools, hne, Bool.false_eq_true,
      if_false]
  · intro cfg e hc hne hfa hs
    subst hc
    simp only [CustomTools.parse_custom_tools, hne, Bool.false_eq_true,
      if_false, hfa, hs]
  · intro cfg defs e hc hne hfa hs hl
    subst hc
    simp only [CustomTools.parse_custom_tools, hne, Bool.false_eq_true,
      if_false, hfa, hs, hl]

/-- Witness for C8 at a concrete malformed-YAML input. -/
theorem c8_loader_never_raises_witness :
    CustomTools.parse_custom_tools "x" (Except.error "bad yaml")
      = ([], [CustomTools.LogEntry.yamlInvalid "bad yaml"]) :=
  (c8_loader_never_raises "x" (Except.error "bad yaml")).2.1 "bad yaml"
    rfl (by decide)
